import Mathlib

/-!
Shallow embedding of the cloud-carbon-footprint estimation engine and its API
middleware.

Sources embedded directly from the repository:
* `src/unnamed/part_000` — the Express router with `FootprintApiMiddleware`
  (CSV-backed footprint endpoint, error-to-status mapping, `groupBy` handling).
* `src/server/test/unit/services/gcp/BillingExportTable.test.ts` — fixes the
  error-message formats of the BigQuery failure paths.

The engine itself (`BillingExportTable.getEstimates`, `ComputeEstimator`,
`StorageEstimator`, the usage classifier, the emissions-factor table and
`appendOrAccumulateEstimatesByDay` from the core package) is not part of the
source tree; those definitions are modelled from the specification and are
marked `Modelled from the spec:` in their doc comments.

Numeric semantics: the JavaScript `number` arithmetic of the engine is embedded
as exact rational arithmetic (`ℚ`); the JavaScript `NaN` produced by dividing
by a missing (`undefined`) lookup result is embedded as `Option.none`.  Where a
claim turns on rounding — JavaScript numbers are IEEE-754 binary64 — a separate
exact model of positive binary64 values with correctly rounded (nearest, ties
to even) division and multiplication (`PosDouble`, `toPosDouble`, `fpDiv`,
`fpMul`) is used alongside the rational embedding.
-/

namespace CCF

/-- Time-bucketing granularity, mirroring `GroupBy` from the common package
(`day`/`week`/`month`). -/
inductive GroupBy
  | day
  | week
  | month
  deriving DecidableEq, Repr

/-- A UTC calendar date: year, month (1..12), day (1..31).  All interface
timestamps are UTC calendar dates (spec section 6), so no time-of-day or
time-zone component is modelled. -/
structure Date where
  year : Int
  month : Nat
  day : Nat
  deriving DecidableEq, Repr

/-- Gregorian leap-year rule, used for month lengths. -/
def isLeapYear (y : Int) : Bool :=
  (y % 4 == 0 && y % 100 != 0) || y % 400 == 0

/-- Number of days in a Gregorian month. -/
def daysInMonth (y : Int) (m : Nat) : Nat :=
  if m = 2 then (if isLeapYear y then 29 else 28)
  else if m = 4 ∨ m = 6 ∨ m = 9 ∨ m = 11 then 30
  else 31

/-- Day of the week (0 = Sunday) by Zeller's congruence. -/
def dayOfWeek (d : Date) : Nat :=
  let m : Int := if d.month < 3 then (d.month : Int) + 12 else (d.month : Int)
  let y : Int := if d.month < 3 then d.year - 1 else d.year
  let k : Int := y % 100
  let j : Int := y / 100
  let h : Int := ((d.day : Int) + (13 * (m + 1)) / 5 + k + k / 4 + j / 4 + 5 * j) % 7
  (((h + 6) % 7)).toNat

/-- The calendar day immediately before `d`. -/
def prevDay (d : Date) : Date :=
  if d.day > 1 then { d with day := d.day - 1 }
  else if d.month > 1 then
    { year := d.year, month := d.month - 1, day := daysInMonth d.year (d.month - 1) }
  else { year := d.year - 1, month := 12, day := 31 }

/-- `d` moved back by `k` calendar days. -/
def subDays : Date → Nat → Date
  | d, 0 => d
  | d, k + 1 => subDays (prevDay d) k

/-- Modelled from the spec: truncation of a timestamp to the start of its
day/week/month bucket (spec sections 3 and 4.5; the `startOf(grouping)`
operation used by the core accumulator, which is not under `src/`).  Week
buckets start on Sunday; month buckets start on the first day of the month. -/
def truncateDate : GroupBy → Date → Date
  | GroupBy.day, d => d
  | GroupBy.week, d => subDays d (dayOfWeek d)
  | GroupBy.month, d => { d with day := 1 }

/-- One time bucket of the output series: the bucket's start timestamp together
with the estimates accumulated into it, mirroring `EstimationResult`.  The
estimate type is a parameter because the engine path stores `ServiceData`
records while the CSV middleware stores its own estimate shape. -/
structure EstimationResultG (α : Type) where
  timestamp : Date
  serviceEstimates : List α
  deriving DecidableEq, Repr

/-- Modelled from the spec: `appendOrAccumulateEstimatesByDay` from the core
package (imported by `src/unnamed/part_000` but not itself under `src/`),
following spec section 4.5: truncate the row timestamp to the bucket start,
append the estimate to an existing bucket with that start (by value equality of
the truncated timestamp), otherwise push a fresh singleton bucket at the end of
the sequence (discovery order). -/
def appendOrAccumulateEstimatesByDay {α : Type} (results : List (EstimationResultG α))
    (rowTimestamp : Date) (estimate : α) (grouping : GroupBy) :
    List (EstimationResultG α) :=
  let bucketStart := truncateDate grouping rowTimestamp
  if ∃ r ∈ results, r.timestamp = bucketStart then
    results.map fun r =>
      if r.timestamp = bucketStart then
        { r with serviceEstimates := r.serviceEstimates ++ [estimate] }
      else r
  else
    results ++ [{ timestamp := bucketStart, serviceEstimates := [estimate] }]

/-- Fold a stream of (row timestamp, estimate) pairs into the bucketed series,
starting from the empty series (spec section 4.5, step-by-step accumulation
during the input scan). -/
def accumulateAll {α : Type} (grouping : GroupBy) (pairs : List (Date × α)) :
    List (EstimationResultG α) :=
  pairs.foldl (fun acc p => appendOrAccumulateEstimatesByDay acc p.1 p.2 grouping) []

/-- One raw billing line item (spec section 3).  Quantities are embedded as
exact rationals. -/
structure UsageRow where
  timestamp : Date
  accountName : String
  serviceName : String
  region : String
  usageType : String
  usageUnit : String
  usageAmount : ℚ
  cost : ℚ
  deriving DecidableEq, Repr

/-- One per-service estimate inside an `EstimationResult`, mirroring the
expected objects of `BillingExportTable.test.ts`. -/
structure ServiceData where
  wattHours : ℚ
  co2e : ℚ
  usesAverageCPUConstant : Bool
  cloudProvider : String
  accountName : String
  serviceName : String
  cost : ℚ
  region : String
  deriving DecidableEq, Repr

/-- Regional emissions factors: CO2e per kilowatt-hour and power usage
effectiveness (spec section 2, component 1). -/
structure EmissionsFactors where
  co2ePerKilowattHour : ℚ
  powerUsageEffectiveness : ℚ
  deriving DecidableEq, Repr

/-- Modelled from the spec: the provider-wide estimation constants
(`CLOUD_CONSTANTS.GCP` and the emissions-factor table of the gcp package,
neither of which is under `src/`): the region-keyed factor table, the
provider-wide average factors used as a fallback for unknown regions (spec
section 4.1), the average-CPU-utilization / min- / max-wattage constants of the
compute estimator (spec section 4.2), the SSD and HDD media coefficients (spec
section 4.3) and the fixed usage-type vocabularies of the classifier (spec
section 4.4). -/
structure CloudConstants where
  regionFactors : List (String × EmissionsFactors)
  averageFactors : EmissionsFactors
  averageCpuUtilization : ℚ
  minWattsPerVCpu : ℚ
  maxWattsPerVCpu : ℚ
  ssdCoefficient : ℚ
  hddCoefficient : ℚ
  computeUsageTypes : List String
  ssdStorageUsageTypes : List String
  hddStorageUsageTypes : List String

/-- Modelled from the spec: emissions-factor lookup with the non-fatal
unknown-region fallback of spec section 4.1 — a region missing from the table
yields the provider-wide average factors instead of an error. -/
def emissionsFactors (c : CloudConstants) (region : String) : EmissionsFactors :=
  (List.lookup region c.regionFactors).getD c.averageFactors

/-- Classification of one raw usage row (spec section 4.4), carrying the
normalized quantity the chosen estimator needs. -/
inductive UsageClassification
  | computeUsage (vCpuHours : ℚ)
  | ssdStorageUsage (terabyteHours : ℚ)
  | hddStorageUsage (terabyteHours : ℚ)
  | unclassified
  deriving DecidableEq, Repr

/-- Whether the first character list is an initial segment of the second. -/
def startsWithChars : List Char → List Char → Bool
  | [], _ => true
  | _ :: _, [] => false
  | a :: as, b :: bs => a == b && startsWithChars as bs

/-- Whether the first character list occurs contiguously in the second. -/
def hasSubChars (pat : List Char) : List Char → Bool
  | [] => startsWithChars pat []
  | b :: bs => startsWithChars pat (b :: bs) || hasSubChars pat bs

/-- True when the usage-type string contains the token `RAM` (such rows are
explicitly excluded from estimation, spec section 4.4). -/
def mentionsRAM (s : String) : Bool :=
  hasSubChars "RAM".toList s.toList

/-- Modelled from the spec: normalization of a compute quantity to vCPU-hours
from the row's `usageAmount`/`usageUnit` (spec section 4.4): an amount measured
in seconds of processor time is divided by 3600; an amount already in hours is
taken as is. -/
def normalizedVCpuHours (amount : ℚ) (unit : String) : ℚ :=
  if unit = "seconds" then amount / 3600 else amount

/-- Modelled from the spec: normalization of a storage quantity to
terabyte-hours from the row's `usageAmount`/`usageUnit` (spec section 4.4): an
amount measured in byte-seconds is divided by 2^40 bytes per terabyte and 3600
seconds per hour; an amount already in terabyte-hours is taken as is. -/
def normalizedTerabyteHours (amount : ℚ) (unit : String) : ℚ :=
  if unit = "byte-seconds" then amount / (1099511627776 * 3600) else amount

/-- Modelled from the spec: the usage classifier (spec section 4.4) — a
fixed-rule lookup of `usageType` against the provider vocabularies, with `RAM`
usage types explicitly excluded first; anything unmatched is `unclassified`
(and will be silently dropped). -/
def classify (c : CloudConstants) (row : UsageRow) : UsageClassification :=
  if mentionsRAM row.usageType then UsageClassification.unclassified
  else if c.computeUsageTypes.contains row.usageType then
    UsageClassification.computeUsage (normalizedVCpuHours row.usageAmount row.usageUnit)
  else if c.ssdStorageUsageTypes.contains row.usageType then
    UsageClassification.ssdStorageUsage (normalizedTerabyteHours row.usageAmount row.usageUnit)
  else if c.hddStorageUsageTypes.contains row.usageType then
    UsageClassification.hddStorageUsage (normalizedTerabyteHours row.usageAmount row.usageUnit)
  else UsageClassification.unclassified

/-- The numeric core of one footprint estimate. -/
structure FootprintEstimate where
  wattHours : ℚ
  co2e : ℚ
  usesAverageCPUConstant : Bool
  deriving DecidableEq, Repr

/-- Modelled from the spec: `ComputeEstimator` (spec section 4.2).  With a
supplied utilization ratio, `wattHours = vCpuHours * minWatts +
ratio * (maxWatts - minWatts) * vCpuHours`, adjusted by the region's PUE and
flagged `usesAverageCPUConstant = false`; with the ratio omitted the provider's
average CPU-utilization constant is substituted and the flag is `true`.
`co2e = wattHours / 1000 * co2ePerKilowattHour(region)`. -/
def computeEstimate (c : CloudConstants) (region : String) (vCpuHours : ℚ)
    (usageRatio : Option ℚ) : FootprintEstimate :=
  let f := emissionsFactors c region
  let ratio := usageRatio.getD c.averageCpuUtilization
  let wattHours :=
    (vCpuHours * c.minWattsPerVCpu
      + ratio * (c.maxWattsPerVCpu - c.minWattsPerVCpu) * vCpuHours)
    * f.powerUsageEffectiveness
  { wattHours := wattHours
    co2e := wattHours / 1000 * f.co2ePerKilowattHour
    usesAverageCPUConstant := usageRatio.isNone }

/-- Modelled from the spec: `StorageEstimator` (spec section 4.3).
`wattHours = terabyteHours * mediaCoefficient * powerUsageEffectiveness(region)`
and `co2e = wattHours / 1000 * co2ePerKilowattHour(region)`; storage estimates
never use the average-CPU constant. -/
def storageEstimate (coefficient : ℚ) (c : CloudConstants) (region : String)
    (terabyteHours : ℚ) : FootprintEstimate :=
  let f := emissionsFactors c region
  let wattHours := terabyteHours * coefficient * f.powerUsageEffectiveness
  { wattHours := wattHours
    co2e := wattHours / 1000 * f.co2ePerKilowattHour
    usesAverageCPUConstant := false }

/-- Attach the row's identifying fields to a numeric estimate, as the expected
results of `BillingExportTable.test.ts` do. -/
def toServiceData (row : UsageRow) (e : FootprintEstimate) : ServiceData :=
  { wattHours := e.wattHours
    co2e := e.co2e
    usesAverageCPUConstant := e.usesAverageCPUConstant
    cloudProvider := "GCP"
    accountName := row.accountName
    serviceName := row.serviceName
    cost := row.cost
    region := row.region }

/-- Modelled from the spec: classify one row and run the matching estimator
(spec section 4.6).  Billing rows carry no utilization ratio, so the compute
path substitutes the average constant; unclassifiable rows yield `none` and
are silently dropped (spec section 7). -/
def estimateRow (c : CloudConstants) (row : UsageRow) : Option ServiceData :=
  match classify c row with
  | UsageClassification.unclassified => none
  | UsageClassification.computeUsage v =>
      some (toServiceData row (computeEstimate c row.region v none))
  | UsageClassification.ssdStorageUsage t =>
      some (toServiceData row (storageEstimate c.ssdCoefficient c row.region t))
  | UsageClassification.hddStorageUsage t =>
      some (toServiceData row (storageEstimate c.hddCoefficient c row.region t))

/-- Modelled from the spec: the per-row scan of `getEstimates` (spec section
4.6) — classify, estimate and accumulate each returned row by day, skipping
unclassifiable rows. -/
def accumulateEstimates (c : CloudConstants) (rows : List UsageRow) :
    List (EstimationResultG ServiceData) :=
  rows.foldl
    (fun acc row =>
      match estimateRow c row with
      | none => acc
      | some e => appendOrAccumulateEstimatesByDay acc row.timestamp e GroupBy.day)
    []

/-- Upstream error detail of a failed query-job creation (the mock of
`BillingExportTable.test.ts` carries `reason`, `location`, `message`). -/
structure UpstreamJobError where
  reason : String
  location : String
  message : String
  deriving DecidableEq, Repr

/-- Upstream error detail of a failed query-result retrieval (the mock of
`BillingExportTable.test.ts` carries `reason`, `domain`, `message`). -/
structure UpstreamResultsError where
  reason : String
  domain : String
  message : String
  deriving DecidableEq, Repr

/-- The two error kinds of the billing-export aggregator (spec section 7). -/
inductive BillingExportError
  | QueryJobSubmissionError (message : String)
  | QueryResultRetrievalError (message : String)
  deriving DecidableEq, Repr

/-- Error message of a failed query-job creation, in the exact format asserted
by `BillingExportTable.test.ts` (lines 257-278). -/
def createQueryJobFailedMessage (e : UpstreamJobError) : String :=
  "BigQuery create Query Job failed. Reason: " ++ e.reason ++ ", Location: "
    ++ e.location ++ ", Message: " ++ e.message

/-- Error message of a failed query-result retrieval, in the exact format
asserted by `BillingExportTable.test.ts` (lines 234-255). -/
def getQueryResultsFailedMessage (e : UpstreamResultsError) : String :=
  "BigQuery get Query Results failed. Reason: " ++ e.reason ++ ", Domain: "
    ++ e.domain ++ ", Message: " ++ e.message

/-- Outcome of the two sequential, independently failing data-source
operations of `getEstimates` (spec sections 4.6 and 6): job submission may
fail, then result retrieval may fail, otherwise rows are returned. -/
inductive DataSourceOutcome
  | submissionFailure (err : UpstreamJobError)
  | retrievalFailure (err : UpstreamResultsError)
  | success (rows : List UsageRow)

/-- Modelled from the spec: `BillingExportTable.getEstimates` (spec section
4.6; only its unit test is under `src/`).  A submission failure maps to
`QueryJobSubmissionError`, a retrieval failure to `QueryResultRetrievalError`,
each embedding the upstream fields verbatim in the tested message format; a
successful fetch classifies, estimates and accumulates every returned row. -/
def getEstimates (c : CloudConstants) (outcome : DataSourceOutcome) :
    Except BillingExportError (List (EstimationResultG ServiceData)) :=
  match outcome with
  | DataSourceOutcome.submissionFailure e =>
      Except.error (BillingExportError.QueryJobSubmissionError (createQueryJobFailedMessage e))
  | DataSourceOutcome.retrievalFailure e =>
      Except.error (BillingExportError.QueryResultRetrievalError (getQueryResultsFailedMessage e))
  | DataSourceOutcome.success rows => Except.ok (accumulateEstimates c rows)

/-- One parsed line of `google-carbon-data.csv` as consumed by
`FootprintApiMiddleware` (`src/unnamed/part_000`): the fields the middleware
reads (`timestamp`, `region`, `co2e`) plus the identifying columns it passes
through.  `co2e` is the already-parsed numeric value (`parseFloat`). -/
structure CsvRow where
  timestamp : Date
  accountName : String
  serviceName : String
  region : String
  co2e : ℚ
  deriving DecidableEq, Repr

/-- The row object after the in-place mutations of `FootprintApiMiddleware`
(`src/unnamed/part_000` lines 64-66): `cloudProvider` is set to `'GCP'` and
`cost` to `0`. -/
structure ProcessedCsvRow where
  timestamp : Date
  accountName : String
  serviceName : String
  region : String
  co2e : ℚ
  cloudProvider : String
  cost : ℚ
  deriving DecidableEq, Repr

/-- `src/unnamed/part_000` lines 64-66: tag the row with the fixed provider and
zero cost. -/
def processCsvRow (row : CsvRow) : ProcessedCsvRow :=
  { timestamp := row.timestamp
    accountName := row.accountName
    serviceName := row.serviceName
    region := row.region
    co2e := row.co2e
    cloudProvider := "GCP"
    cost := 0 }

/-- The footprint-estimate object built by `FootprintApiMiddleware`
(`src/unnamed/part_000` lines 68-73).  `kilowattHours` is
`co2e / FACTORS[region]` in JavaScript; when the region is absent from the
factor table the lookup is `undefined` and the quotient is `NaN`, embedded
here as `none`. -/
structure CsvFootprintEstimate where
  timestamp : Date
  kilowattHours : Option ℚ
  co2e : ℚ
  deriving DecidableEq, Repr

/-- `src/unnamed/part_000` lines 67-73: build the per-row estimate from the
parsed `co2e` and the region's emissions factor
(`GCP_EMISSIONS_FACTORS_METRIC_TON_PER_KWH`, embedded as a partial map since a
missing region yields `undefined`).  The JavaScript double quotient is embedded
here as exact rational division; this is faithful for presence/absence
properties, while rounding-sensitive properties of the quotient are settled
against the binary64 model (`csvKilowattHoursB64`) below. -/
def csvRowFootprintEstimate (factors : String → Option ℚ) (row : CsvRow) :
    CsvFootprintEstimate :=
  { timestamp := row.timestamp
    kilowattHours := (factors row.region).map (fun f => row.co2e / f)
    co2e := row.co2e }

/-- `src/unnamed/part_000` lines 61-80: the CSV-backed footprint endpoint folds
every row's estimate into the result series with
`appendOrAccumulateEstimatesByDay(results, row, footprintEstimate,
GroupBy.month)`. -/
def footprintApiResults (factors : String → Option ℚ) (rows : List CsvRow) :
    List (EstimationResultG CsvFootprintEstimate) :=
  rows.foldl
    (fun acc row =>
      appendOrAccumulateEstimatesByDay acc row.timestamp
        (csvRowFootprintEstimate factors row) GroupBy.month)
    []

/-- A positive finite IEEE-754 binary64 value in canonical normalized form:
`mantissa ∈ [2^52, 2^53)` and the denoted value is `mantissa * 2 ^ exponent`.
This models the positive JavaScript numbers flowing through
`src/unnamed/part_000` line 71 (parsed co2e values and emissions factors;
subnormal and overflow ranges are far from these magnitudes and not
modelled). -/
structure PosDouble where
  mantissa : Nat
  exponent : Int
  deriving DecidableEq, Repr

/-- Number of binary digits of `n`, by fuel recursion (the first argument is
the fuel and always suffices at `n` itself). -/
def bitLenAux : Nat → Nat → Nat
  | 0, _ => 0
  | fuel + 1, n => if n = 0 then 0 else 1 + bitLenAux fuel (n / 2)

/-- Number of binary digits of `n`. -/
def bitLen (n : Nat) : Nat := bitLenAux n n

/-- Floor, remainder and denominator of `a * 2 ^ k / b` as exact integer
division: the triple `(q, r, d)` satisfies `a * 2 ^ k / b = q + r / d` with
`0 ≤ r < d`. -/
def scaledDivMod (a b : Nat) (k : Int) : Nat × Nat × Nat :=
  if 0 ≤ k then ((a * 2 ^ k.toNat) / b, (a * 2 ^ k.toNat) % b, b)
  else (a / (b * 2 ^ (-k).toNat), a % (b * 2 ^ (-k).toNat), b * 2 ^ (-k).toNat)

/-- Round the positive rational `a / b` to the nearest binary64 value, ties to
even — the IEEE-754 rounding JavaScript applies both when parsing a decimal
literal and after every arithmetic operation.  The scaling exponent is chosen
so the rounded mantissa is normalized; a round-up to `2^53` carries into the
exponent. -/
def toPosDouble (a b : Nat) : PosDouble :=
  let k0 : Int := 53 + (bitLen b : Int) - (bitLen a : Int)
  let k : Int :=
    if 2 ^ 53 ≤ (scaledDivMod a b k0).1 then k0 - 1
    else if (scaledDivMod a b k0).1 < 2 ^ 52 then k0 + 1
    else k0
  let d := scaledDivMod a b k
  let m :=
    if 2 * d.2.1 < d.2.2 then d.1
    else if d.2.2 < 2 * d.2.1 then d.1 + 1
    else if d.1 % 2 = 0 then d.1 else d.1 + 1
  if m = 2 ^ 53 then { mantissa := 2 ^ 52, exponent := 1 - k }
  else { mantissa := m, exponent := -k }

/-- Correctly rounded binary64 division of positive doubles: the exact
quotient `(m₁ 2^e₁) / (m₂ 2^e₂) = (m₁ / m₂) 2^(e₁ - e₂)` rounded to nearest,
ties to even. -/
def fpDiv (x y : PosDouble) : PosDouble :=
  let d := toPosDouble x.mantissa y.mantissa
  { d with exponent := d.exponent + x.exponent - y.exponent }

/-- Correctly rounded binary64 multiplication of positive doubles: the exact
product `m₁ m₂ 2^(e₁ + e₂)` rounded to nearest, ties to even. -/
def fpMul (x y : PosDouble) : PosDouble :=
  let d := toPosDouble (x.mantissa * y.mantissa) 1
  { d with exponent := d.exponent + x.exponent + y.exponent }

/-- `src/unnamed/part_000` line 71 in the source's own double-precision
arithmetic, for a present region with a positive factor: the kilowatt-hours
number is the correctly rounded binary64 quotient of the parsed co2e double by
the factor double. -/
def csvKilowattHoursB64 (co2e factor : PosDouble) : PosDouble :=
  fpDiv co2e factor

/-- The error classes distinguished by the catch block of
`FootprintApiMiddleware` (`src/unnamed/part_000` lines 83-95): the two named
error constructors it compares against, and everything else. -/
inductive FootprintRequestError
  | EstimationRequestValidationError (message : String)
  | PartialDataError (message : String)
  | otherError (message : String)
  deriving DecidableEq, Repr

/-- An HTTP response: status code and body. -/
structure ApiResponse where
  status : Nat
  body : String
  deriving DecidableEq, Repr

/-- `src/unnamed/part_000` lines 83-95: the error-to-response mapping of the
footprint endpoint — validation errors get status 400 with the error message,
partial-data errors get status 416 with the error message, and every other
failure gets status 500 with a generic body. -/
def footprintErrorResponse : FootprintRequestError → ApiResponse
  | FootprintRequestError.EstimationRequestValidationError m => { status := 400, body := m }
  | FootprintRequestError.PartialDataError m => { status := 416, body := m }
  | FootprintRequestError.otherError _ => { status := 500, body := "Internal Server Error" }

/-- The raw query parameters of a footprint request
(`src/unnamed/part_000` lines 43-48). -/
structure FootprintEstimatesRawRequest where
  startDate : Option String
  endDate : Option String
  ignoreCache : Option String
  groupBy : Option String
  deriving DecidableEq, Repr

/-- JavaScript truthiness of an optional string: `undefined` and the empty
string are falsy. -/
def jsTruthyString : Option String → Bool
  | none => false
  | some s => !s.isEmpty

/-- `src/unnamed/part_000` lines 52-55: the middleware warns exactly when the
`groupBy` parameter is falsy. -/
def groupByWarningEmitted (req : FootprintEstimatesRawRequest) : Bool :=
  !jsTruthyString req.groupBy

/-- `src/unnamed/part_000` lines 74-79: the grouping actually passed to the
accumulator by the footprint endpoint — `GroupBy.month`, independent of the
request. -/
def footprintRequestGrouping (_ : FootprintEstimatesRawRequest) : GroupBy :=
  GroupBy.month

/-! ### Concrete demonstration data

Small concrete constants, rows and requests used to exercise the definitions
on closed inputs.  The numeric values are arbitrary but fixed exact rationals;
the identifying strings follow the fixtures of `BillingExportTable.test.ts`. -/

/-- A small concrete emissions-factor map in the shape of
`GCP_EMISSIONS_FACTORS_METRIC_TON_PER_KWH`. -/
def demoGcpFactors : String → Option ℚ :=
  fun region =>
    List.lookup region [("us-east1", 3 / 10000), ("us-west1", 1 / 10000)]

/-- Concrete provider constants for evaluating the modelled engine. -/
def demoConstants : CloudConstants :=
  { regionFactors :=
      [("us-east1", { co2ePerKilowattHour := 3 / 10000, powerUsageEffectiveness := 11 / 10 }),
       ("us-west1", { co2ePerKilowattHour := 1 / 10000, powerUsageEffectiveness := 11 / 10 })]
    averageFactors := { co2ePerKilowattHour := 2 / 10000, powerUsageEffectiveness := 6 / 5 }
    averageCpuUtilization := 1 / 2
    minWattsPerVCpu := 1
    maxWattsPerVCpu := 2
    ssdCoefficient := 6 / 5
    hddCoefficient := 13 / 20
    computeUsageTypes := ["Instance Core running"]
    ssdStorageUsageTypes := ["SSD backed PD Capacity"]
    hddStorageUsageTypes := ["Storage PD Capacity"] }

/-- A concrete App Engine SSD-storage usage row. -/
def demoSsdRow : UsageRow :=
  { timestamp := ⟨2020, 11, 2⟩
    accountName := "test-account"
    serviceName := "App Engine"
    region := "us-east1"
    usageType := "SSD backed PD Capacity"
    usageUnit := "terabyte-hours"
    usageAmount := 5
    cost := 15 }

/-- A concrete RAM usage row for the same service and day as `demoSsdRow`. -/
def demoRamRow : UsageRow :=
  { timestamp := ⟨2020, 11, 2⟩
    accountName := "test-account"
    serviceName := "App Engine"
    region := "us-east1"
    usageType := "Memory RAM hours"
    usageUnit := "byte-seconds"
    usageAmount := 100
    cost := 3 }

/-- A concrete row whose usage type matches no estimator vocabulary. -/
def demoUnknownRow : UsageRow :=
  { timestamp := ⟨2020, 11, 2⟩
    accountName := "test-account"
    serviceName := "Compute Engine"
    region := "us-east1"
    usageType := "Licensing Fee Z1000"
    usageUnit := "seconds"
    usageAmount := 100
    cost := 3 }

/-- A concrete service estimate for exercising the accumulator. -/
def demoEstimate : ServiceData :=
  { wattHours := 1
    co2e := 1 / 1000
    usesAverageCPUConstant := false
    cloudProvider := "GCP"
    accountName := "test-account"
    serviceName := "App Engine"
    cost := 15
    region := "us-east1" }

/-- A concrete CSV row whose region is absent from `demoGcpFactors`. -/
def unknownRegionCsvRow : CsvRow :=
  { timestamp := ⟨2020, 10, 28⟩
    accountName := "test-account"
    serviceName := "App Engine"
    region := "unknown"
    co2e := 3 / 1000 }

/-- A concrete CSV row whose region is present in `demoGcpFactors`. -/
def demoCsvRow : CsvRow :=
  { timestamp := ⟨2020, 11, 2⟩
    accountName := "test-account"
    serviceName := "App Engine"
    region := "us-east1"
    co2e := 3 / 1000 }

/-- A concrete footprint request without a `groupBy` parameter. -/
def demoRequest : FootprintEstimatesRawRequest :=
  { startDate := some "2020-10-01"
    endDate := some "2020-11-03"
    ignoreCache := none
    groupBy := none }

/-! ### Helper lemmas about the accumulator -/

/-- Any property of bucket timestamps that holds for the accumulated series and
for the incoming row's truncated timestamp survives one accumulation step. -/
theorem timestamp_mem_appendOrAccumulate {α : Type} {P : Date → Prop}
    {acc : List (EstimationResultG α)} {ts : Date} {e : α} {g : GroupBy}
    (hacc : ∀ r ∈ acc, P r.timestamp) (hts : P (truncateDate g ts)) :
    ∀ r ∈ appendOrAccumulateEstimatesByDay acc ts e g, P r.timestamp := by
  intro r hr
  simp only [appendOrAccumulateEstimatesByDay] at hr
  split at hr
  · obtain ⟨a, ha, rfl⟩ := List.mem_map.mp hr
    have ht : ((if a.timestamp = truncateDate g ts then
        { a with serviceEstimates := a.serviceEstimates ++ [e] } else a) :
        EstimationResultG α).timestamp = a.timestamp := by
      split <;> rfl
    rw [ht]
    exact hacc a ha
  · rcases List.mem_append.mp hr with h1 | h2
    · exact hacc r h1
    · rw [List.mem_singleton.mp h2]
      exact hts

/-- Fold version of `timestamp_mem_appendOrAccumulate`. -/
theorem timestamp_mem_accumulate_foldl {α : Type} (g : GroupBy) (P : Date → Prop) :
    ∀ (l : List (Date × α)) (acc : List (EstimationResultG α)),
      (∀ r ∈ acc, P r.timestamp) → (∀ p ∈ l, P (truncateDate g p.1)) →
      ∀ r ∈ l.foldl (fun a p => appendOrAccumulateEstimatesByDay a p.1 p.2 g) acc,
        P r.timestamp := by
  intro l
  induction l with
  | nil => intro acc hacc _ r hr; exact hacc r hr
  | cons p t ih =>
      intro acc hacc hl r hr
      simp only [List.foldl_cons] at hr
      exact ih _ (timestamp_mem_appendOrAccumulate hacc (hl p (List.mem_cons_self p t)))
        (fun q hq => hl q (List.mem_cons_of_mem p hq)) r hr

/-- One accumulation step keeps the bucket timestamps free of duplicates. -/
theorem timestamps_nodup_appendOrAccumulate {α : Type}
    (acc : List (EstimationResultG α)) (ts : Date) (e : α) (g : GroupBy)
    (h : (acc.map fun r => r.timestamp).Nodup) :
    ((appendOrAccumulateEstimatesByDay acc ts e g).map fun r => r.timestamp).Nodup := by
  simp only [appendOrAccumulateEstimatesByDay]
  split
  · have heq : ((acc.map fun r =>
        if r.timestamp = truncateDate g ts then
          { r with serviceEstimates := r.serviceEstimates ++ [e] }
        else r).map fun r => r.timestamp) = acc.map fun r => r.timestamp := by
      rw [List.map_map]
      apply List.map_congr_left
      intro a _
      simp only [Function.comp]
      split <;> rfl
    rw [heq]
    exact h
  · next hno =>
      rw [List.map_append]
      simp only [List.map_cons, List.map_nil]
      refine List.Nodup.append h (List.nodup_singleton _) ?_
      intro x hx hx2
      rw [List.mem_singleton.mp hx2] at hx
      obtain ⟨a, ha, ha2⟩ := List.mem_map.mp hx
      exact hno ⟨a, ha, ha2⟩

/-- Fold version of `timestamps_nodup_appendOrAccumulate`. -/
theorem timestamps_nodup_foldl {α : Type} (g : GroupBy) :
    ∀ (l : List (Date × α)) (acc : List (EstimationResultG α)),
      ((acc.map fun r => r.timestamp)).Nodup →
      ((l.foldl (fun a p => appendOrAccumulateEstimatesByDay a p.1 p.2 g) acc).map
        fun r => r.timestamp).Nodup := by
  intro l
  induction l with
  | nil => intro acc h; exact h
  | cons p t ih =>
      intro acc h
      simp only [List.foldl_cons]
      exact ih _ (timestamps_nodup_appendOrAccumulate acc p.1 p.2 g h)

/-- Every estimate sitting inside a bucket after one accumulation step came
from a source pair whose truncated timestamp is that bucket's timestamp. -/
theorem provenance_appendOrAccumulate {α : Type} {S : Date × α → Prop}
    {acc : List (EstimationResultG α)} {ts : Date} {e0 : α} {g : GroupBy}
    (hS : S (ts, e0))
    (hacc : ∀ r ∈ acc, ∀ e ∈ r.serviceEstimates,
      ∃ p, S p ∧ p.2 = e ∧ truncateDate g p.1 = r.timestamp) :
    ∀ r ∈ appendOrAccumulateEstimatesByDay acc ts e0 g, ∀ e ∈ r.serviceEstimates,
      ∃ p, S p ∧ p.2 = e ∧ truncateDate g p.1 = r.timestamp := by
  intro r hr e he
  simp only [appendOrAccumulateEstimatesByDay] at hr
  split at hr
  · obtain ⟨a, ha, rfl⟩ := List.mem_map.mp hr
    by_cases h2 : a.timestamp = truncateDate g ts
    · rw [if_pos h2] at he ⊢
      have he2 : e ∈ a.serviceEstimates ++ [e0] := he
      rcases List.mem_append.mp he2 with h3 | h3
      · obtain ⟨p, hp1, hp2, hp3⟩ := hacc a ha e h3
        exact ⟨p, hp1, hp2, hp3⟩
      · exact ⟨(ts, e0), hS, (List.mem_singleton.mp h3).symm, h2.symm⟩
    · rw [if_neg h2] at he ⊢
      exact hacc a ha e he
  · rcases List.mem_append.mp hr with h1 | h1
    · exact hacc r h1 e he
    · rw [List.mem_singleton.mp h1] at he ⊢
      have he2 : e ∈ [e0] := he
      exact ⟨(ts, e0), hS, (List.mem_singleton.mp he2).symm, rfl⟩

/-- Fold version of `provenance_appendOrAccumulate`. -/
theorem provenance_foldl {α : Type} (g : GroupBy) (S : Date × α → Prop) :
    ∀ (l : List (Date × α)) (acc : List (EstimationResultG α)),
      (∀ p ∈ l, S p) →
      (∀ r ∈ acc, ∀ e ∈ r.serviceEstimates,
        ∃ p, S p ∧ p.2 = e ∧ truncateDate g p.1 = r.timestamp) →
      ∀ r ∈ l.foldl (fun a p => appendOrAccumulateEstimatesByDay a p.1 p.2 g) acc,
        ∀ e ∈ r.serviceEstimates, ∃ p, S p ∧ p.2 = e ∧ truncateDate g p.1 = r.timestamp := by
  intro l
  induction l with
  | nil => intro acc _ hacc r hr; exact hacc r hr
  | cons p t ih =>
      intro acc hl hacc r hr
      simp only [List.foldl_cons] at hr
      refine ih _ (fun q hq => hl q (List.mem_cons_of_mem p hq)) ?_ r hr
      have hp : S (p.1, p.2) := by
        have hp0 := hl p (List.mem_cons_self p t)
        simpa using hp0
      exact provenance_appendOrAccumulate hp hacc

/-- A row whose classification is `unclassified` contributes no estimate. -/
theorem estimateRow_eq_none_of_unclassified {c : CloudConstants} {row : UsageRow}
    (h : classify c row = UsageClassification.unclassified) : estimateRow c row = none := by
  simp [estimateRow, h]

/-- The per-row scan of `getEstimates` leaves the series untouched when every
row contributes no estimate. -/
theorem accumulateEstimates_skip_all (c : CloudConstants) :
    ∀ (l : List UsageRow) (acc : List (EstimationResultG ServiceData)),
      (∀ row ∈ l, estimateRow c row = none) →
      l.foldl (fun acc row =>
        match estimateRow c row with
        | none => acc
        | some e => appendOrAccumulateEstimatesByDay acc row.timestamp e GroupBy.day) acc
        = acc := by
  intro l
  induction l with
  | nil => intro acc _; rfl
  | cons x t ih =>
      intro acc hl
      have hx := hl x (List.mem_cons_self x t)
      simp only [List.foldl_cons, hx]
      exact ih acc fun row hrow => hl row (List.mem_cons_of_mem x hrow)

/-! ### Claim theorems -/

/-- C1: the API boundary maps an `EstimationRequestValidationError` to a
client-error response (HTTP 400, carrying the error message), a
`PartialDataError` to the distinct incomplete-range response (HTTP 416,
carrying the error message), and every other failure to the generic
server-error response (HTTP 500), and these three response classes have
pairwise distinct status codes. -/
theorem footprintErrorResponse_distinguishable (m v p : String) :
    (footprintErrorResponse (FootprintRequestError.EstimationRequestValidationError m)).status = 400
      ∧ (footprintErrorResponse (FootprintRequestError.PartialDataError m)).status = 416
      ∧ (footprintErrorResponse (FootprintRequestError.otherError m)).status = 500
      ∧ (footprintErrorResponse (FootprintRequestError.EstimationRequestValidationError m)).body = m
      ∧ (footprintErrorResponse (FootprintRequestError.PartialDataError m)).body = m
      ∧ (footprintErrorResponse
          (FootprintRequestError.EstimationRequestValidationError v)).status
          ≠ (footprintErrorResponse (FootprintRequestError.PartialDataError p)).status
      ∧ (footprintErrorResponse
          (FootprintRequestError.EstimationRequestValidationError v)).status
          ≠ (footprintErrorResponse (FootprintRequestError.otherError p)).status
      ∧ (footprintErrorResponse (FootprintRequestError.PartialDataError v)).status
          ≠ (footprintErrorResponse (FootprintRequestError.otherError p)).status :=
  ⟨rfl, rfl, rfl, rfl, rfl, by simp [footprintErrorResponse],
    by simp [footprintErrorResponse], by simp [footprintErrorResponse]⟩

/-- C1 witness: the mapping evaluated at concrete error messages. -/
theorem footprintErrorResponse_distinguishable_witness :
    (footprintErrorResponse
        (FootprintRequestError.EstimationRequestValidationError "Bad date range")).status = 400
      ∧ (footprintErrorResponse (FootprintRequestError.PartialDataError "Bad date range")).status = 416
      ∧ (footprintErrorResponse (FootprintRequestError.otherError "Bad date range")).status = 500
      ∧ (footprintErrorResponse
          (FootprintRequestError.EstimationRequestValidationError "Bad date range")).body
          = "Bad date range"
      ∧ (footprintErrorResponse (FootprintRequestError.PartialDataError "Bad date range")).body
          = "Bad date range"
      ∧ (footprintErrorResponse
          (FootprintRequestError.EstimationRequestValidationError "a")).status
          ≠ (footprintErrorResponse (FootprintRequestError.PartialDataError "b")).status
      ∧ (footprintErrorResponse
          (FootprintRequestError.EstimationRequestValidationError "a")).status
          ≠ (footprintErrorResponse (FootprintRequestError.otherError "b")).status
      ∧ (footprintErrorResponse (FootprintRequestError.PartialDataError "a")).status
          ≠ (footprintErrorResponse (FootprintRequestError.otherError "b")).status :=
  footprintErrorResponse_distinguishable "Bad date range" "a" "b"

/-- C2: a failed query-job submission makes `getEstimates` fail with a
`QueryJobSubmissionError` embedding the upstream reason, location and message
verbatim; a failed query-result retrieval makes it fail with the distinct
`QueryResultRetrievalError` kind embedding the upstream reason, domain and
message verbatim; the two kinds are never equal. -/
theorem getEstimates_error_kinds (c : CloudConstants) (ej : UpstreamJobError)
    (er : UpstreamResultsError) :
    getEstimates c (DataSourceOutcome.submissionFailure ej)
        = Except.error (BillingExportError.QueryJobSubmissionError
            ("BigQuery create Query Job failed. Reason: " ++ ej.reason ++ ", Location: "
              ++ ej.location ++ ", Message: " ++ ej.message))
      ∧ getEstimates c (DataSourceOutcome.retrievalFailure er)
        = Except.error (BillingExportError.QueryResultRetrievalError
            ("BigQuery get Query Results failed. Reason: " ++ er.reason ++ ", Domain: "
              ++ er.domain ++ ", Message: " ++ er.message))
      ∧ ∀ m₁ m₂ : String, BillingExportError.QueryJobSubmissionError m₁
          ≠ BillingExportError.QueryResultRetrievalError m₂ :=
  ⟨rfl, rfl, fun _ _ h => BillingExportError.noConfusion h⟩

/-- C2 witness: the two failure paths evaluated on the exact mock error details
of `BillingExportTable.test.ts`. -/
theorem getEstimates_error_kinds_witness :
    getEstimates demoConstants (DataSourceOutcome.submissionFailure
          ⟨"Invalid Query", "query", "Test message"⟩)
        = Except.error (BillingExportError.QueryJobSubmissionError
            "BigQuery create Query Job failed. Reason: Invalid Query, Location: query, Message: Test message")
      ∧ getEstimates demoConstants (DataSourceOutcome.retrievalFailure
          ⟨"notFound", "global", "Not found: Job"⟩)
        = Except.error (BillingExportError.QueryResultRetrievalError
            "BigQuery get Query Results failed. Reason: notFound, Domain: global, Message: Not found: Job")
      ∧ BillingExportError.QueryJobSubmissionError "m"
          ≠ BillingExportError.QueryResultRetrievalError "m" := by
  have h := getEstimates_error_kinds demoConstants ⟨"Invalid Query", "query", "Test message"⟩
    ⟨"notFound", "global", "Not found: Job"⟩
  exact ⟨h.1, h.2.1, h.2.2 "m" "m"⟩

/-- C3: every bucket produced by the accumulator carries the timestamp of some
contributing row truncated exactly to the requested granularity; in
particular, under month granularity every returned timestamp is the first day
of its month. -/
theorem engine_bucket_timestamps_truncated (g : GroupBy) (pairs : List (Date × ServiceData))
    (r : EstimationResultG ServiceData) (hr : r ∈ accumulateAll g pairs) :
    (∃ p ∈ pairs, r.timestamp = truncateDate g p.1)
      ∧ (g = GroupBy.month → r.timestamp.day = 1) := by
  have h1 : ∃ p ∈ pairs, r.timestamp = truncateDate g p.1 := by
    refine timestamp_mem_accumulate_foldl g
      (fun t => ∃ p ∈ pairs, t = truncateDate g p.1) pairs []
      (fun x hx => absurd hx (List.not_mem_nil x))
      (fun p hp => ⟨p, hp, rfl⟩) r ?_
    simpa [accumulateAll] using hr
  refine ⟨h1, ?_⟩
  rintro rfl
  obtain ⟨p, _, ht⟩ := h1
  rw [ht]
  rfl

/-- C3 witness: a November 2 row accumulated under month granularity lands in
the November 1 bucket. -/
theorem engine_bucket_timestamps_truncated_witness :
    (∃ p ∈ [((⟨2020, 11, 2⟩ : Date), demoEstimate)],
        (⟨(⟨2020, 11, 1⟩ : Date), [demoEstimate]⟩ : EstimationResultG ServiceData).timestamp
          = truncateDate GroupBy.month p.1)
      ∧ (GroupBy.month = GroupBy.month →
        (⟨(⟨2020, 11, 1⟩ : Date), [demoEstimate]⟩ :
          EstimationResultG ServiceData).timestamp.day = 1) :=
  engine_bucket_timestamps_truncated GroupBy.month [((⟨2020, 11, 2⟩ : Date), demoEstimate)]
    ⟨⟨2020, 11, 1⟩, [demoEstimate]⟩ (by
      have hval : accumulateAll GroupBy.month [((⟨2020, 11, 2⟩ : Date), demoEstimate)]
          = [⟨⟨2020, 11, 1⟩, [demoEstimate]⟩] := rfl
      rw [hval]
      exact List.mem_singleton_self _)

/-- C4: the accumulator's output never has two buckets with the same truncated
timestamp (the bucket key); every estimate inside a bucket came from a
contributing pair whose truncated timestamp is that bucket's; an estimate
landing in an existing bucket is appended at the end of that bucket's list,
and accumulating the same (timestamp, estimate) pair twice yields one bucket
holding two separate list entries — never merged or summed. -/
theorem accumulator_bucket_invariants (g : GroupBy) (pairs : List (Date × ServiceData)) :
    ((accumulateAll g pairs).map fun r => r.timestamp).Nodup
      ∧ (∀ r ∈ accumulateAll g pairs, ∀ e ∈ r.serviceEstimates,
          ∃ p ∈ pairs, p.2 = e ∧ truncateDate g p.1 = r.timestamp)
      ∧ (∀ (acc : List (EstimationResultG ServiceData)) (d : Date) (e : ServiceData)
          (r : EstimationResultG ServiceData), r ∈ acc → r.timestamp = truncateDate g d →
          { r with serviceEstimates := r.serviceEstimates ++ [e] }
            ∈ appendOrAccumulateEstimatesByDay acc d e g)
      ∧ (∀ (d : Date) (e : ServiceData),
          accumulateAll g [(d, e), (d, e)]
            = [{ timestamp := truncateDate g d, serviceEstimates := [e, e] }]) := by
  refine ⟨?_, ?_, ?_, ?_⟩
  · simpa [accumulateAll] using
      timestamps_nodup_foldl g pairs [] (by simp)
  · intro r hr e he
    have h := provenance_foldl g (fun p => p ∈ pairs) pairs []
      (fun p hp => hp) (fun x hx => absurd hx (List.not_mem_nil x))
      r (by simpa [accumulateAll] using hr) e he
    obtain ⟨p, hp1, hp2, hp3⟩ := h
    exact ⟨p, hp1, hp2, hp3⟩
  · intro acc d e r hrmem hrts
    simp only [appendOrAccumulateEstimatesByDay]
    rw [if_pos ⟨r, hrmem, hrts⟩]
    exact List.mem_map.mpr ⟨r, hrmem, by rw [if_pos hrts]⟩
  · intro d e
    have s1 : appendOrAccumulateEstimatesByDay ([] : List (EstimationResultG ServiceData)) d e g
        = [⟨truncateDate g d, [e]⟩] := by
      simp [appendOrAccumulateEstimatesByDay]
    have s2 : appendOrAccumulateEstimatesByDay [(⟨truncateDate g d, [e]⟩ :
        EstimationResultG ServiceData)] d e g
        = [⟨truncateDate g d, [e, e]⟩] := by
      simp [appendOrAccumulateEstimatesByDay]
    simp only [accumulateAll, List.foldl_cons, List.foldl_nil, s1, s2]

/-- C4 witness: accumulating the same pair twice under month granularity
yields one bucket with two entries. -/
theorem accumulator_bucket_invariants_witness :
    accumulateAll GroupBy.month
        [((⟨2020, 11, 2⟩ : Date), demoEstimate), (⟨2020, 11, 2⟩, demoEstimate)]
      = [⟨⟨2020, 11, 1⟩, [demoEstimate, demoEstimate]⟩] :=
  (accumulator_bucket_invariants GroupBy.month
    [((⟨2020, 11, 2⟩ : Date), demoEstimate), (⟨2020, 11, 2⟩, demoEstimate)]).2.2.2
    ⟨2020, 11, 2⟩ demoEstimate

/-- C5: supplying a utilization ratio to the compute estimator yields
`usesAverageCPUConstant = false`; omitting it substitutes the provider's
average CPU-utilization constant (so the watt-hours equal the direct-ratio
formula at that constant), yields `usesAverageCPUConstant = true`, and — as
long as the supplied ratio, the wattage span, the usage and the PUE are
non-degenerate — a different `wattHours` value than the direct-ratio formula
produces. -/
theorem computeEstimator_utilization_flag (c : CloudConstants) (region : String) (v r : ℚ)
    (hr : r ≠ c.averageCpuUtilization) (hv : v ≠ 0)
    (hw : c.minWattsPerVCpu ≠ c.maxWattsPerVCpu)
    (hpue : (emissionsFactors c region).powerUsageEffectiveness ≠ 0) :
    (computeEstimate c region v (some r)).usesAverageCPUConstant = false
      ∧ (computeEstimate c region v none).usesAverageCPUConstant = true
      ∧ (computeEstimate c region v none).wattHours
          = (computeEstimate c region v (some c.averageCpuUtilization)).wattHours
      ∧ (computeEstimate c region v (some r)).wattHours
          ≠ (computeEstimate c region v none).wattHours := by
  refine ⟨rfl, rfl, rfl, ?_⟩
  intro hEq
  have key : (computeEstimate c region v (some r)).wattHours
      - (computeEstimate c region v none).wattHours
      = (r - c.averageCpuUtilization) * (c.maxWattsPerVCpu - c.minWattsPerVCpu) * v
        * (emissionsFactors c region).powerUsageEffectiveness := by
    simp only [computeEstimate, Option.getD]
    ring
  rw [hEq, sub_self] at key
  rcases mul_eq_zero.mp key.symm with h1 | h1
  · rcases mul_eq_zero.mp h1 with h2 | h2
    · rcases mul_eq_zero.mp h2 with h3 | h3
      · exact hr (sub_eq_zero.mp h3)
      · exact hw (sub_eq_zero.mp h3).symm
    · exact hv h2
  · exact hpue h1

/-- C5 witness: the compute estimator evaluated at a concrete record with and
without a supplied ratio. -/
theorem computeEstimator_utilization_flag_witness :
    (computeEstimate demoConstants "us-east1" 10 (some (1 / 4))).usesAverageCPUConstant = false
      ∧ (computeEstimate demoConstants "us-east1" 10 none).usesAverageCPUConstant = true
      ∧ (computeEstimate demoConstants "us-east1" 10 none).wattHours
          = (computeEstimate demoConstants "us-east1" 10
              (some demoConstants.averageCpuUtilization)).wattHours
      ∧ (computeEstimate demoConstants "us-east1" 10 (some (1 / 4))).wattHours
          ≠ (computeEstimate demoConstants "us-east1" 10 none).wattHours :=
  computeEstimator_utilization_flag demoConstants "us-east1" 10 (1 / 4)
    (by norm_num [demoConstants]) (by norm_num) (by norm_num [demoConstants])
    (by rw [show emissionsFactors demoConstants "us-east1"
        = (⟨3 / 10000, 11 / 10⟩ : EmissionsFactors) from rfl]
        norm_num)

/-- C6: an input of one SSD-storage row plus one RAM row yields exactly one
footprint estimate — the RAM row classifies as unclassified and is ignored —
and that estimate follows the storage formula
`wattHours = terabyteHours * mediaCoefficient * PUE(region)` and
`co2e = wattHours / 1000 * co2ePerKilowattHour(region)` applied to the SSD row
alone. -/
theorem ssd_row_with_ram_row_single_estimate (c : CloudConstants) (ssdRow ramRow : UsageRow)
    (t : ℚ) (hssd : classify c ssdRow = UsageClassification.ssdStorageUsage t)
    (hram : mentionsRAM ramRow.usageType = true) :
    accumulateEstimates c [ssdRow, ramRow]
        = [{ timestamp := truncateDate GroupBy.day ssdRow.timestamp,
             serviceEstimates :=
               [toServiceData ssdRow (storageEstimate c.ssdCoefficient c ssdRow.region t)] }]
      ∧ (storageEstimate c.ssdCoefficient c ssdRow.region t).wattHours
          = t * c.ssdCoefficient * (emissionsFactors c ssdRow.region).powerUsageEffectiveness
      ∧ (storageEstimate c.ssdCoefficient c ssdRow.region t).co2e
          = (storageEstimate c.ssdCoefficient c ssdRow.region t).wattHours / 1000
            * (emissionsFactors c ssdRow.region).co2ePerKilowattHour
      ∧ classify c ramRow = UsageClassification.unclassified := by
  have hclass : classify c ramRow = UsageClassification.unclassified := by
    simp [classify, hram]
  refine ⟨?_, rfl, rfl, hclass⟩
  have h1 : estimateRow c ssdRow
      = some (toServiceData ssdRow (storageEstimate c.ssdCoefficient c ssdRow.region t)) := by
    simp [estimateRow, hssd]
  have h2 : estimateRow c ramRow = none := estimateRow_eq_none_of_unclassified hclass
  simp only [accumulateEstimates, List.foldl_cons, List.foldl_nil, h1, h2]
  simp [appendOrAccumulateEstimatesByDay]

/-- C6 witness: the scenario evaluated on a concrete App Engine SSD row and a
concrete RAM row for the same service and day. -/
theorem ssd_row_with_ram_row_single_estimate_witness :
    accumulateEstimates demoConstants [demoSsdRow, demoRamRow]
        = [{ timestamp := truncateDate GroupBy.day demoSsdRow.timestamp,
             serviceEstimates :=
               [toServiceData demoSsdRow
                 (storageEstimate demoConstants.ssdCoefficient demoConstants
                   demoSsdRow.region 5)] }]
      ∧ classify demoConstants demoRamRow = UsageClassification.unclassified := by
  have h := ssd_row_with_ram_row_single_estimate demoConstants demoSsdRow demoRamRow 5 rfl rfl
  exact ⟨h.1, h.2.2.2⟩

/-- C7 counterexample: in the CSV middleware of `src/unnamed/part_000`, a row
whose region is absent from the emissions-factor table does not get a
fallback estimate — its `kilowattHours` is the undefined JavaScript quotient
(`co2e / undefined = NaN`, embedded as `none`), refuting the claim that every
estimation path substitutes provider-average factors for unknown regions. -/
theorem csv_unknown_region_no_fallback :
    ¬ ∃ q : ℚ, (csvRowFootprintEstimate demoGcpFactors unknownRegionCsvRow).kilowattHours
        = some q := by
  rintro ⟨q, hq⟩
  rw [show (csvRowFootprintEstimate demoGcpFactors unknownRegionCsvRow).kilowattHours
      = none from rfl] at hq
  exact Option.noConfusion hq

/-- C7 (amended): the engine's estimation substitutes the provider-wide
average factors for a region absent from the emissions-factor table and still
produces an estimate; the CSV middleware, by contrast, performs no fallback —
its `kilowattHours` is undefined exactly when the row's region is absent from
its factor table. -/
theorem unknown_region_fallback_amended (c : CloudConstants) (region : String)
    (h : List.lookup region c.regionFactors = none)
    (factors : String → Option ℚ) (row : CsvRow) :
    emissionsFactors c region = c.averageFactors
      ∧ (∀ v : ℚ, computeEstimate c region v none
          = { wattHours := (v * c.minWattsPerVCpu
                + c.averageCpuUtilization * (c.maxWattsPerVCpu - c.minWattsPerVCpu) * v)
                * c.averageFactors.powerUsageEffectiveness,
              co2e := (v * c.minWattsPerVCpu
                + c.averageCpuUtilization * (c.maxWattsPerVCpu - c.minWattsPerVCpu) * v)
                * c.averageFactors.powerUsageEffectiveness / 1000
                * c.averageFactors.co2ePerKilowattHour,
              usesAverageCPUConstant := true })
      ∧ ((csvRowFootprintEstimate factors row).kilowattHours = none
          ↔ factors row.region = none) := by
  have hf : emissionsFactors c region = c.averageFactors := by
    simp [emissionsFactors, h]
  refine ⟨hf, ?_, ?_⟩
  · intro v
    simp [computeEstimate, hf]
  · cases hfr : factors row.region <;> simp [csvRowFootprintEstimate, hfr]

/-- C7 witness: the fallback and the middleware behaviour evaluated at the
concrete region `unknown`. -/
theorem unknown_region_fallback_amended_witness :
    emissionsFactors demoConstants "unknown" = demoConstants.averageFactors
      ∧ computeEstimate demoConstants "unknown" 10 none
        = { wattHours := 18, co2e := 9 / 2500000, usesAverageCPUConstant := true }
      ∧ ((csvRowFootprintEstimate demoGcpFactors unknownRegionCsvRow).kilowattHours = none
          ↔ demoGcpFactors unknownRegionCsvRow.region = none) := by
  have h := unknown_region_fallback_amended demoConstants "unknown" rfl
    demoGcpFactors unknownRegionCsvRow
  refine ⟨h.1, ?_, h.2.2⟩
  rw [h.2.1 10]
  norm_num [demoConstants]

/-- C8: for a successful data fetch, `getEstimates` always returns a result
(it never throws because of unclassifiable rows); when every row is
unclassifiable, and when the range yields no rows, it returns the empty
sequence rather than an error. -/
theorem getEstimates_unclassifiable_rows_safe (c : CloudConstants) (rows : List UsageRow) :
    (∃ res, getEstimates c (DataSourceOutcome.success rows) = Except.ok res)
      ∧ ((∀ row ∈ rows, classify c row = UsageClassification.unclassified) →
          getEstimates c (DataSourceOutcome.success rows) = Except.ok [])
      ∧ getEstimates c (DataSourceOutcome.success []) = Except.ok [] := by
  refine ⟨⟨accumulateEstimates c rows, rfl⟩, ?_, rfl⟩
  intro hall
  have hnil : accumulateEstimates c rows = [] := by
    simp only [accumulateEstimates]
    exact accumulateEstimates_skip_all c rows []
      fun row hrow => estimateRow_eq_none_of_unclassified (hall row hrow)
  show Except.ok (accumulateEstimates c rows) = Except.ok []
  rw [hnil]

/-- C8 witness: a fetch returning one RAM row and one unknown-usage row yields
the empty sequence, not an error. -/
theorem getEstimates_unclassifiable_rows_safe_witness :
    (∃ res, getEstimates demoConstants (DataSourceOutcome.success [demoRamRow, demoUnknownRow])
        = Except.ok res)
      ∧ getEstimates demoConstants (DataSourceOutcome.success [demoRamRow, demoUnknownRow])
        = Except.ok []
      ∧ getEstimates demoConstants (DataSourceOutcome.success []) = Except.ok [] := by
  have h := getEstimates_unclassifiable_rows_safe demoConstants [demoRamRow, demoUnknownRow]
  exact ⟨h.1, h.2.1 (of_decide_eq_true rfl), h.2.2⟩

/-- C9: when the `groupBy` parameter is absent, the middleware emits the
warning and the accumulator is driven at month granularity, which coarsens all
rows of one calendar month into the same bucket. -/
theorem groupBy_absent_defaults_month (req : FootprintEstimatesRawRequest)
    (h : req.groupBy = none) :
    groupByWarningEmitted req = true
      ∧ footprintRequestGrouping req = GroupBy.month
      ∧ (∀ d₁ d₂ : Date, d₁.year = d₂.year → d₁.month = d₂.month →
          truncateDate GroupBy.month d₁ = truncateDate GroupBy.month d₂) := by
  refine ⟨by simp [groupByWarningEmitted, jsTruthyString, h], rfl, ?_⟩
  intro d₁ d₂ hy hm
  show ({ d₁ with day := 1 } : Date) = { d₂ with day := 1 }
  cases d₁
  cases d₂
  simp_all

/-- C9 witness: the defaulting evaluated on a concrete request without
`groupBy`, and month-truncation coarsening two distinct November days into the
same bucket. -/
theorem groupBy_absent_defaults_month_witness :
    groupByWarningEmitted demoRequest = true
      ∧ footprintRequestGrouping demoRequest = GroupBy.month
      ∧ truncateDate GroupBy.month ⟨2020, 11, 2⟩ = truncateDate GroupBy.month ⟨2020, 11, 27⟩ := by
  have h := groupBy_absent_defaults_month demoRequest rfl
  exact ⟨h.1, h.2.1, h.2.2 ⟨2020, 11, 2⟩ ⟨2020, 11, 27⟩ rfl rfl⟩

set_option maxRecDepth 8000 in
/-- C10 counterexample: the claimed round-trip identity
`kilowattHours * factor = co2e` fails in the IEEE-754 double-precision
arithmetic the source actually runs (`src/unnamed/part_000` line 71).  At the
parsed co2e `0.011` (nearest double `6341068275337658 * 2^(-59)`) and the
emissions factor `0.0003006` (nearest double `5545091268557091 * 2^(-64)`),
the rounded quotient is `5150074424180333 * 2^(-47)` and multiplying it back
by the factor rounds to `6341068275337659 * 2^(-59)` — the next double above
`0.011`, so the product does not equal the parsed co2e exactly. -/
theorem csv_double_roundtrip_counterexample :
    csvKilowattHoursB64 (toPosDouble 11 1000) (toPosDouble 3006 10000000)
        = { mantissa := 5150074424180333, exponent := -47 }
      ∧ fpMul (csvKilowattHoursB64 (toPosDouble 11 1000) (toPosDouble 3006 10000000))
          (toPosDouble 3006 10000000)
        = { mantissa := 6341068275337659, exponent := -59 }
      ∧ toPosDouble 11 1000 = { mantissa := 6341068275337658, exponent := -59 }
      ∧ fpMul (csvKilowattHoursB64 (toPosDouble 11 1000) (toPosDouble 3006 10000000))
          (toPosDouble 3006 10000000)
        ≠ toPosDouble 11 1000 := by
  have h1 : fpMul (csvKilowattHoursB64 (toPosDouble 11 1000) (toPosDouble 3006 10000000))
      (toPosDouble 3006 10000000)
      = ({ mantissa := 6341068275337659, exponent := -59 } : PosDouble) := rfl
  have h2 : toPosDouble 11 1000
      = ({ mantissa := 6341068275337658, exponent := -59 } : PosDouble) := rfl
  refine ⟨rfl, h1, h2, ?_⟩
  intro h
  rw [h1, h2] at h
  injection h with hm he
  omega

/-- C10 (amended): every row of the CSV-backed footprint endpoint gets cost
fixed to 0 and cloud provider fixed to GCP, and its `kilowattHours` is the
parsed `co2e` divided by the region's emissions factor; for a present,
non-zero factor, multiplying back recovers the parsed `co2e` in exact rational
arithmetic — though not exactly in the source's double-precision arithmetic,
as the counterexample theorem above shows. -/
theorem csv_row_algebraic_invariants (factors : String → Option ℚ) (row : CsvRow) (f : ℚ)
    (hf : factors row.region = some f) (hf0 : f ≠ 0) :
    (processCsvRow row).cost = 0
      ∧ (processCsvRow row).cloudProvider = "GCP"
      ∧ (csvRowFootprintEstimate factors row).kilowattHours = some (row.co2e / f)
      ∧ row.co2e / f * f = row.co2e := by
  refine ⟨rfl, rfl, ?_, div_mul_cancel₀ _ hf0⟩
  simp [csvRowFootprintEstimate, hf]

/-- C10 witness: the CSV row processing evaluated on a concrete row with a
present region factor. -/
theorem csv_row_algebraic_invariants_witness :
    (processCsvRow demoCsvRow).cost = 0
      ∧ (processCsvRow demoCsvRow).cloudProvider = "GCP"
      ∧ (csvRowFootprintEstimate demoGcpFactors demoCsvRow).kilowattHours
        = some ((3 : ℚ) / 1000 / (3 / 10000))
      ∧ (3 : ℚ) / 1000 / (3 / 10000) * (3 / 10000) = 3 / 1000 :=
  csv_row_algebraic_invariants demoGcpFactors demoCsvRow (3 / 10000) rfl (by norm_num)

end CCF

